import Mathlib

/-!
Verification of the conformance-grading harness in tester_testat.py.

The harness drives an arbitrary candidate implementation (a Python class
loaded from a student file).  The candidate is external code, so we model
each call the harness makes into candidate code by its observable outcome:
either a returned Python value or a raised exception.  The harness
functions themselves (test_init, test_create, test_update, test_search,
test_take, test_add, test_bom_init, test_bom_availability, check_docstring,
check_pep8, run_all_tests and the scoring of main) are translated directly
from the source, preserving evaluation order, short-circuiting, and the
try/except structure.
-/

/-- Exception classes distinguished by the harness.  The harness only ever
discriminates KeyError (in test_update); every other exception class is
handled uniformly by the catch-all handlers. -/
inductive Exc where
  | keyError
  | typeError
  | attributeError
  | valueError
  | otherError
deriving DecidableEq

/-- Atomic Python values that appear in the comparisons the harness makes. -/
inductive Prim where
  | none
  | bool (b : Bool)
  | int (n : Int)
  | str (s : String)
  | obj (id : Nat)
deriving DecidableEq

/-- Structural model of the Python values the candidate may return and the
harness may inspect: atoms, dicts (string-keyed, as used throughout the
harness), sequences (lists/tuples/sets are all inspected only via `in`,
`len`, `sorted` and element equality here), and opaque objects. -/
inductive PyVal where
  | prim (p : Prim)
  | dict (entries : List (String × PyVal))
  | list (elems : List PyVal)
  | obj (id : Nat)

/-- Python `==` on atoms; True == 1 and False == 0 as in Python. -/
def primBeq : Prim → Prim → Bool
  | Prim.none, Prim.none => true
  | Prim.bool a, Prim.bool b => a == b
  | Prim.bool a, Prim.int n => (if a then (1 : Int) else 0) == n
  | Prim.int n, Prim.bool b => n == (if b then (1 : Int) else 0)
  | Prim.int m, Prim.int n => m == n
  | Prim.str a, Prim.str b => a == b
  | Prim.obj i, Prim.obj j => i == j
  | _, _ => false

/-- First value bound to a key in an association list (dict lookup). -/
def findVal : List (String × PyVal) → String → Option PyVal
  | [], _ => Option.none
  | (k, v) :: rest, key => if k == key then some v else findVal rest key

/-- Fuel-indexed Python `==` on structural values.  Dicts compare as finite
maps (key set and pointwise value equality, insertion order ignored);
sequences compare pointwise.  The fuel strictly exceeds the recursion
depth whenever it is at least the combined size of the two values. -/
def pyBeqF : Nat → PyVal → PyVal → Bool
  | 0, _, _ => false
  | Nat.succ f, a, b =>
    match a, b with
    | PyVal.prim p, PyVal.prim q => primBeq p q
    | PyVal.dict d1, PyVal.dict d2 =>
      d1.all (fun kv =>
        match findVal d2 kv.1 with
        | some w => pyBeqF f kv.2 w
        | Option.none => false) &&
      d2.all (fun kv =>
        match findVal d1 kv.1 with
        | some w => pyBeqF f w kv.2
        | Option.none => false)
    | PyVal.list l1, PyVal.list l2 =>
      l1.length == l2.length &&
      (l1.zip l2).all (fun pr => pyBeqF f pr.1 pr.2)
    | PyVal.obj i, PyVal.obj j => i == j
    | _, _ => false

mutual

/-- Executable size of a structural value, used as recursion fuel. -/
def pySize : PyVal → Nat
  | PyVal.prim _ => 1
  | PyVal.dict d => 1 + pySizeEntries d
  | PyVal.list l => 1 + pySizeList l
  | PyVal.obj _ => 1

/-- Combined size of dict entries. -/
def pySizeEntries : List (String × PyVal) → Nat
  | [] => 0
  | (_, v) :: rest => 1 + pySize v + pySizeEntries rest

/-- Combined size of sequence elements. -/
def pySizeList : List PyVal → Nat
  | [] => 0
  | v :: rest => 1 + pySize v + pySizeList rest

end

/-- Python `==` on structural values. -/
def pyBeq (a b : PyVal) : Bool := pyBeqF (pySize a + pySize b) a b

/-- Python truthiness. -/
def pyTruthy : PyVal → Bool
  | PyVal.prim Prim.none => false
  | PyVal.prim (Prim.bool b) => b
  | PyVal.prim (Prim.int n) => !(n == 0)
  | PyVal.prim (Prim.str s) => !s.isEmpty
  | PyVal.prim (Prim.obj _) => true
  | PyVal.dict d => !d.isEmpty
  | PyVal.list l => !l.isEmpty
  | PyVal.obj _ => true

/-- Python `x is None`. -/
def pyIsNone : PyVal → Bool
  | PyVal.prim Prim.none => true
  | _ => false

/-- Python `x is False`. -/
def pyIsFalse : PyVal → Bool
  | PyVal.prim (Prim.bool b) => !b
  | _ => false

/-- Python subscript `v[key]` with a string key: KeyError on a missing dict
key, TypeError on values that do not support string subscripts. -/
def pySub : PyVal → String → Except Exc PyVal
  | PyVal.dict d, key =>
    match findVal d key with
    | some v => Except.ok v
    | Option.none => Except.error Exc.keyError
  | _, _ => Except.error Exc.typeError

/-- Python `v.get(key, dflt)`: AttributeError when `v` is not a dict. -/
def pyGetD (v : PyVal) (key : String) (dflt : PyVal) : Except Exc PyVal :=
  match v with
  | PyVal.dict d =>
    match findVal d key with
    | some w => Except.ok w
    | Option.none => Except.ok dflt
  | _ => Except.error Exc.attributeError

/-- Substring test, via splitting on the pattern. -/
def strContains (s pat : String) : Bool := decide (2 ≤ (s.splitOn pat).length)

/-- Python `key in v` for a string operand: dict key membership, sequence
element membership, substring test on strings, TypeError otherwise. -/
def pyContains (v : PyVal) (key : String) : Except Exc Bool :=
  match v with
  | PyVal.dict d => Except.ok (d.any (fun kv => kv.1 == key))
  | PyVal.list l => Except.ok (l.any (fun x => pyBeq x (PyVal.prim (Prim.str key))))
  | PyVal.prim (Prim.str s) => Except.ok (strContains s key)
  | _ => Except.error Exc.typeError

/-- Python `len(v)`: TypeError on unsized values. -/
def pyLen : PyVal → Except Exc Nat
  | PyVal.dict d => Except.ok d.length
  | PyVal.list l => Except.ok l.length
  | PyVal.prim (Prim.str s) => Except.ok s.length
  | _ => Except.error Exc.typeError

/-- Insertion into a sorted list of strings. -/
def insertStr (x : String) : List String → List String
  | [] => [x]
  | y :: ys => if decide (x ≤ y) then x :: y :: ys else y :: insertStr x ys

/-- Insertion sort on strings. -/
def sortStrings : List String → List String
  | [] => []
  | x :: xs => insertStr x (sortStrings xs)

/-- Insertion into a sorted list of integers. -/
def insertInt (x : Int) : List Int → List Int
  | [] => [x]
  | y :: ys => if decide (x ≤ y) then x :: y :: ys else y :: insertInt x ys

/-- Insertion sort on integers. -/
def sortInts : List Int → List Int
  | [] => []
  | x :: xs => insertInt x (sortInts xs)

/-- Numeric view of an atom (bool counts as 0 or 1, as in Python sorting). -/
def numVal : Prim → Option Int
  | Prim.int n => some n
  | Prim.bool b => some (if b then 1 else 0)
  | _ => Option.none

/-- All-strings view of a sequence. -/
def asStrs : List PyVal → Option (List String)
  | [] => some []
  | PyVal.prim (Prim.str s) :: rest =>
    match asStrs rest with
    | some ss => some (s :: ss)
    | Option.none => Option.none
  | _ => Option.none

/-- All-numbers view of a sequence. -/
def asNums : List PyVal → Option (List Int)
  | [] => some []
  | PyVal.prim p :: rest =>
    match numVal p with
    | some n =>
      match asNums rest with
      | some ns => some (n :: ns)
      | Option.none => Option.none
    | Option.none => Option.none
  | _ => Option.none

/-- Python `sorted(v)`: sorts homogeneous sequences of strings or numbers,
sorts the keys of a dict, the characters of a string, and raises TypeError
otherwise (mixed or unorderable element types, non-iterables). -/
def pySorted : PyVal → Except Exc (List PyVal)
  | PyVal.list l =>
    match asStrs l with
    | some ss => Except.ok ((sortStrings ss).map (fun s => PyVal.prim (Prim.str s)))
    | Option.none =>
      match asNums l with
      | some ns => Except.ok ((sortInts ns).map (fun n => PyVal.prim (Prim.int n)))
      | Option.none => Except.error Exc.typeError
  | PyVal.dict d =>
    Except.ok ((sortStrings (d.map Prod.fst)).map (fun s => PyVal.prim (Prim.str s)))
  | PyVal.prim (Prim.str s) =>
    Except.ok ((sortStrings (s.toList.map (fun c => String.mk [c]))).map
      (fun t => PyVal.prim (Prim.str t)))
  | _ => Except.error Exc.typeError

/-- Python list `==` between a computed list and a list of values. -/
def pyListEq (l1 l2 : List PyVal) : Bool :=
  l1.length == l2.length && (l1.zip l2).all (fun pr => pyBeq pr.1 pr.2)

/-- Python 2-tuple unpacking `a, b = v` (tuples are modeled as sequences):
ValueError on a sequence of the wrong length, TypeError on non-iterables. -/
def pyUnpack2 : PyVal → Except Exc (PyVal × PyVal)
  | PyVal.list [a, b] => Except.ok (a, b)
  | PyVal.list _ => Except.error Exc.valueError
  | _ => Except.error Exc.typeError

/-- Exception-propagating sequencing, the shape of straight-line Python
statements: a raise in `e` aborts, otherwise evaluation continues. -/
def ebind {α β : Type} (e : Except Exc α) (f : α → Except Exc β) : Except Exc β :=
  match e with
  | Except.error err => Except.error err
  | Except.ok v => f v

/-- The catch-all `except Exception: return 0` wrapper of the scenarios. -/
def runCaught (e : Except Exc Nat) : Nat :=
  match e with
  | Except.ok n => n
  | Except.error _ => 0

/-- Did the computation finish without raising? -/
def isOkE {α : Type} : Except Exc α → Bool
  | Except.ok _ => true
  | Except.error _ => false

/-- The call returned (did not raise) and its value satisfies `p`. -/
def okA (e : Except Exc PyVal) (p : PyVal → Bool) : Bool :=
  match e with
  | Except.ok v => p v
  | Except.error _ => false

/-- The computation returned `true` (used for membership tests). -/
def okB (e : Except Exc Bool) : Bool :=
  match e with
  | Except.ok b => b
  | Except.error _ => false

/-- The computation returned a number satisfying `p` (used for len tests). -/
def okN (e : Except Exc Nat) (p : Nat → Bool) : Bool :=
  match e with
  | Except.ok n => p n
  | Except.error _ => false

/-!
Scenario outcomes.  Each structure records, in program order, the outcome
of every call into candidate code (and every candidate attribute access)
that the corresponding scenario function performs.
-/

/-- Candidate interactions of test_init: the Storage constructor call, the
later `s._data` attribute read, and whether the instance has a `_path`
attribute (`hasattr` never raises). -/
structure InitOutcome where
  ctor : Except Exc Unit
  dataAttr : Except Exc PyVal
  hasPath : Bool

/-- Candidate interactions of test_create: the three `create` calls and the
two `s._data` reads, in program order. -/
structure CreateOutcome where
  r1 : Except Exc PyVal
  dataA : Except Exc PyVal
  r2 : Except Exc PyVal
  r3 : Except Exc PyVal
  dataB : Except Exc PyVal

/-- Candidate interactions of test_update: the seeding `create`, the first
`update`, the `s._data` read, and the `update` on the unknown key. -/
structure UpdateOutcome where
  c : Except Exc PyVal
  u1 : Except Exc PyVal
  dataA : Except Exc PyVal
  u2 : Except Exc PyVal

/-- Candidate interactions of test_search: the seeding `create` and the five
`search` calls (exact, by attributes, argumentless, no-match, combined). -/
structure SearchOutcome where
  c : Except Exc PyVal
  sExact : Except Exc PyVal
  sAttr : Except Exc PyVal
  sAll : Except Exc PyVal
  sNone : Except Exc PyVal
  sComb : Except Exc PyVal

/-- Candidate interactions of test_take: the two seeding `create` calls and
the three `take` calls. -/
structure TakeOutcome where
  c1 : Except Exc PyVal
  c2 : Except Exc PyVal
  t1 : Except Exc PyVal
  t2 : Except Exc PyVal
  t3 : Except Exc PyVal

/-- Candidate interactions of test_add: the seeding `create`, the four `add`
calls, and the two `s._data` reads used for the count checks. -/
structure AddOutcome where
  c : Except Exc PyVal
  r1 : Except Exc PyVal
  dataA : Except Exc PyVal
  r2 : Except Exc PyVal
  r3 : Except Exc PyVal
  r4 : Except Exc PyVal
  dataB : Except Exc PyVal

/-- Candidate interactions of test_bom_init: the BOM constructor call and
the `b._parts` attribute read. -/
structure BomInitOutcome where
  ctor : Except Exc Unit
  partsAttr : Except Exc PyVal

/-- Candidate interactions of test_bom_availability: the fresh Storage
constructor call and the two `availability` calls. -/
structure BomAvailOutcome where
  sctor : Except Exc Unit
  a1 : Except Exc PyVal
  a2 : Except Exc PyVal

/-- test_init, translated from the source.  It is the one scenario with no
try/except: a raise in the constructor or the `_data` read propagates.
Checks: `data.get("INITTEST-001", \x7b\x7d).get("count") == "100"`, then
`data.get("INITTEST-002", \x7b\x7d).get("value") == "TPS73033"`, then
`hasattr(s, "_path")`; 3 points if all hold, else 0. -/
def test_init (o : InitOutcome) : Except Exc Nat :=
  ebind o.ctor (fun _ =>
  ebind o.dataAttr (fun data =>
  ebind (pyGetD data ("INITTEST-001") (PyVal.dict [])) (fun r1 =>
  ebind (pyGetD r1 ("count") (PyVal.prim Prim.none)) (fun c1 =>
  if pyBeq c1 (PyVal.prim (Prim.str ("100"))) then
    ebind (pyGetD data ("INITTEST-002") (PyVal.dict [])) (fun r2 =>
    ebind (pyGetD r2 ("value") (PyVal.prim Prim.none)) (fun v2 =>
    if pyBeq v2 (PyVal.prim (Prim.str ("TPS73033"))) then
      if o.hasPath then Except.ok 3 else Except.ok 0
    else Except.ok 0))
  else Except.ok 0))))

/-- Body of test_create before its catch-all handler.  Mirrors the source:
first create must be truthy and the stored record must have count "25" and
value "green"; the refused overwrite must return the literal False; the
forced overwrite must be truthy and leave count "100". -/
def test_create_body (o : CreateOutcome) : Except Exc Nat :=
  ebind o.r1 (fun r1 =>
  if pyTruthy r1 then
    ebind o.dataA (fun dataA =>
    ebind (pyGetD dataA ("CREATETEST-001") (PyVal.prim Prim.none)) (fun part =>
    if pyTruthy part then
      ebind (pySub part ("count")) (fun cv =>
      if pyBeq cv (PyVal.prim (Prim.str ("25"))) then
        ebind (pySub part ("value")) (fun vv =>
        if pyBeq vv (PyVal.prim (Prim.str ("green"))) then
          ebind o.r2 (fun r2 =>
          if pyIsFalse r2 then
            ebind o.r3 (fun r3 =>
            if pyTruthy r3 then
              ebind o.dataB (fun dataB =>
              ebind (pySub dataB ("CREATETEST-001")) (fun p2 =>
              ebind (pySub p2 ("count")) (fun c2 =>
              if pyBeq c2 (PyVal.prim (Prim.str ("100"))) then Except.ok 3
              else Except.ok 0)))
            else Except.ok 0)
          else Except.ok 0)
        else Except.ok 0)
      else Except.ok 0)
    else Except.ok 0))
  else Except.ok 0)

/-- test_create with its catch-all handler. -/
def test_create (o : CreateOutcome) : Nat := runCaught (test_create_body o)

/-- Body of test_update before its catch-all handler.  The stored record
must keep package "SOT-23-5" and count "20"; then the update on the unknown
key sits in an inner `try` whose only handler is `except KeyError`:
a normal return scores 0, KeyError scores 3, any other raise propagates to
the catch-all. -/
def test_update_body (o : UpdateOutcome) : Except Exc Nat :=
  ebind o.c (fun _ =>
  ebind o.u1 (fun _ =>
  ebind o.dataA (fun dataA =>
  ebind (pySub dataA ("UPDATETEST-001")) (fun part =>
  ebind (pySub part ("package")) (fun pk =>
  if pyBeq pk (PyVal.prim (Prim.str ("SOT-23-5"))) then
    ebind (pySub part ("count")) (fun cv =>
    if pyBeq cv (PyVal.prim (Prim.str ("20"))) then
      match o.u2 with
      | Except.ok _ => Except.ok 0
      | Except.error Exc.keyError => Except.ok 3
      | Except.error e => Except.error e
    else Except.ok 0)
  else Except.ok 0)))))

/-- test_update with its catch-all handler. -/
def test_update (o : UpdateOutcome) : Nat := runCaught (test_update_body o)

/-- Body of test_search before its catch-all handler: the exact lookup must
be truthy with package "SOT-23-5"; the attribute search must contain
"SEARCHTEST-001"; the argumentless search must have len at least 1; the
no-match search must be the literal None; the combined search must equal
the exact lookup. -/
def test_search_body (o : SearchOutcome) : Except Exc Nat :=
  ebind o.c (fun _ =>
  ebind o.sExact (fun ex =>
  if pyTruthy ex then
    ebind (pySub ex ("package")) (fun pkg =>
    if pyBeq pkg (PyVal.prim (Prim.str ("SOT-23-5"))) then
      ebind o.sAttr (fun at1 =>
      ebind (pyContains at1 ("SEARCHTEST-001")) (fun mem =>
      if mem then
        ebind o.sAll (fun al =>
        ebind (pyLen al) (fun n =>
        if n < 1 then Except.ok 0
        else
          ebind o.sNone (fun nm =>
          if pyIsNone nm then
            ebind o.sComb (fun cb =>
            if pyBeq cb ex then Except.ok 3 else Except.ok 0)
          else Except.ok 0)))
      else Except.ok 0))
    else Except.ok 0)
  else Except.ok 0))

/-- test_search with its catch-all handler. -/
def test_search (o : SearchOutcome) : Nat := runCaught (test_search_body o)

/-- Expected shortfall mapping of the second take. -/
def takeLit2 : PyVal := PyVal.dict [(("TAKETEST-002"), PyVal.prim (Prim.int (-35)))]

/-- Expected shortfall mapping of the take on a wholly unknown part. -/
def takeLit3 : PyVal := PyVal.dict [(("TAKETEST-NOT_EXIST"), PyVal.prim (Prim.int (-5)))]

/-- Body of test_take before its catch-all handler: the satisfiable batch
must return the literal None, the short batch must equal
the one-entry mapping to -35, the unknown-part take must equal the
one-entry mapping to -5. -/
def test_take_body (o : TakeOutcome) : Except Exc Nat :=
  ebind o.c1 (fun _ =>
  ebind o.c2 (fun _ =>
  ebind o.t1 (fun r1 =>
  if pyIsNone r1 then
    ebind o.t2 (fun r2 =>
    if pyBeq r2 takeLit2 then
      ebind o.t3 (fun r3 =>
      if pyBeq r3 takeLit3 then Except.ok 2 else Except.ok 0)
    else Except.ok 0)
  else Except.ok 0)))

/-- test_take with its catch-all handler. -/
def test_take (o : TakeOutcome) : Nat := runCaught (test_take_body o)

/-- Expected mapping for the all-unknown add batch. -/
def addLit2 : PyVal :=
  PyVal.dict [(("UNKNOWN-A"), PyVal.prim (Prim.int 10)),
              (("UNKNOWN-B"), PyVal.prim (Prim.int 15))]

/-- Expected mapping for the mixed add batch. -/
def addLit3 : PyVal := PyVal.dict [(("UNKNOWN-A"), PyVal.prim (Prim.int 10))]

/-- Body of test_add before its catch-all handler: known-part add returns
None and count becomes "130"; the all-unknown batch returns exactly the
unknown mapping; the mixed batch returns exactly the unknown subset; the
zero-quantity add returns None and count stays "135". -/
def test_add_body (o : AddOutcome) : Except Exc Nat :=
  ebind o.c (fun _ =>
  ebind o.r1 (fun r1 =>
  if pyIsNone r1 then
    ebind o.dataA (fun dataA =>
    ebind (pySub dataA ("ADDTEST-001")) (fun pa =>
    ebind (pySub pa ("count")) (fun ca =>
    if pyBeq ca (PyVal.prim (Prim.str ("130"))) then
      ebind o.r2 (fun r2 =>
      if pyBeq r2 addLit2 then
        ebind o.r3 (fun r3 =>
        if pyBeq r3 addLit3 then
          ebind o.r4 (fun r4 =>
          if pyIsNone r4 then
            ebind o.dataB (fun dataB =>
            ebind (pySub dataB ("ADDTEST-001")) (fun pb =>
            ebind (pySub pb ("count")) (fun cb =>
            if pyBeq cb (PyVal.prim (Prim.str ("135"))) then Except.ok 2
            else Except.ok 0)))
          else Except.ok 0)
        else Except.ok 0)
      else Except.ok 0)
    else Except.ok 0)))
  else Except.ok 0))

/-- test_add with its catch-all handler. -/
def test_add (o : AddOutcome) : Nat := runCaught (test_add_body o)

/-- Expected sorted reference group of part BOMTEST-003. -/
def bomRefLit : List PyVal :=
  [PyVal.prim (Prim.str ("C3")), PyVal.prim (Prim.str ("C4")),
   PyVal.prim (Prim.str ("C5")), PyVal.prim (Prim.str ("C6"))]

/-- Body of test_bom_init before its handler: it returns the constructed
instance (here: a flag that an instance is available) together with the
score; the grouped part BOMTEST-003 must be present and its sorted
reference collection must equal C3, C4, C5, C6. -/
def test_bom_init_body (o : BomInitOutcome) : Except Exc (Bool × Nat) :=
  ebind o.ctor (fun _ =>
  ebind o.partsAttr (fun parts =>
  ebind (pyContains parts ("BOMTEST-003")) (fun mem =>
  if mem then
    ebind (pySub parts ("BOMTEST-003")) (fun grp =>
    ebind (pySub grp ("reference")) (fun refv =>
    ebind (pySorted refv) (fun sortedRefs =>
    if pyListEq sortedRefs bomRefLit then Except.ok (true, 2)
    else Except.ok (false, 0))))
  else Except.ok (false, 0))))

/-- test_bom_init with its handler: any raise yields (no instance, 0), and
a failed check also returns no instance, exactly as the source returns
`None, 0` on every path but full success. -/
def test_bom_init (o : BomInitOutcome) : Bool × Nat :=
  match test_bom_init_body o with
  | Except.ok p => p
  | Except.error _ => (false, 0)

/-- Body of test_bom_availability before its catch-all handler: the
structured result must contain BOMTEST-004; the text-producing call is
unpacked as a pair whose second component must be a string containing
"Part Number". -/
def test_bom_availability_body (o : BomAvailOutcome) : Except Exc Nat :=
  ebind o.sctor (fun _ =>
  ebind o.a1 (fun res =>
  ebind (pyContains res ("BOMTEST-004")) (fun mem =>
  if mem then
    ebind o.a2 (fun pairv =>
    ebind (pyUnpack2 pairv) (fun pr =>
    match pr.2 with
    | PyVal.prim (Prim.str t) =>
      if strContains t ("Part Number") then Except.ok 3 else Except.ok 0
    | _ => Except.ok 0))
  else Except.ok 0)))

/-- test_bom_availability with its catch-all handler. -/
def test_bom_availability (o : BomAvailOutcome) : Nat :=
  runCaught (test_bom_availability_body o)

/-!
Documentation auditor, style auditor, and the grading run.
-/

/-- Attribute surface of a class as the documentation auditor sees it: for
each method name that `getattr` finds, the result of `inspect.getdoc`
(None or a docstring). -/
structure PyClass where
  methods : List (String × Option String)

/-- Lookup of a method.  The outer Option is `getattr(cls, name, None)`
(absent method gives the falsy None); the inner Option is `inspect.getdoc`. -/
def findDoc : List (String × Option String) → String → Option (Option String)
  | [], _ => Option.none
  | (k, d) :: rest, key => if k == key then some d else findDoc rest key

/-- The per-method condition of the source loop: the method is present and
`inspect.getdoc` gives a truthy (non-empty) docstring. -/
def documented (cls : PyClass) (name : String) : Bool :=
  match findDoc cls.methods name with
  | some (some d) => !d.isEmpty
  | _ => false

/-- Required Storage operations, in source order. -/
def storageMethodNames : List String :=
  [("__init__"), ("create"), ("update"), ("search"), ("take"), ("add")]

/-- Required BOM operations, in source order. -/
def bomMethodNames : List String := [("__init__"), ("availability")]

/-- Number of required methods of `cls` among `names` that are documented,
as accumulated by the source loop. -/
def docCount (cls : PyClass) : List String → Nat
  | [] => 0
  | n :: rest => (if documented cls n then 1 else 0) + docCount cls rest

/-- check_docstring, translated from the source: `total` counts documented
required operations, `required` counts all required operations (the BOM
names only when a BOM class was supplied, matching `if bom_cls:`), and the
result is 1 exactly when the two counters agree, else 0. -/
def check_docstring (storage_cls : PyClass) (bom_cls : Option PyClass) : Nat :=
  let total := docCount storage_cls storageMethodNames +
    (match bom_cls with
     | some b => docCount b bomMethodNames
     | Option.none => 0)
  let required := storageMethodNames.length +
    (match bom_cls with
     | some _ => bomMethodNames.length
     | Option.none => 0)
  if total = required then 1 else 0

/-- check_pep8, translated from the source.  The linter invocation is a
black box: `none` is the FileNotFoundError path (tool missing, 0 points
after a diagnostic print), `some rc0` records whether the return code was
zero (2 points) or not (0 points). -/
def check_pep8 (flake8 : Option Bool) : Nat :=
  match flake8 with
  | Option.none => 0
  | some rc0 => if rc0 then 2 else 0

/-- Filesystem events of the grading run that concern the temporary
directory. -/
inductive FsEvent where
  | mkdtemp
  | rmtree
deriving DecidableEq

/-- One report row: label, earned points, maximum points. -/
abbrev Row := String × Nat × Nat

/-- The zero rows appended when the Storage type is unavailable. -/
def zeroStorageRows : List Row :=
  [(("T411–T414 - __init__"), 0, 3),
   (("T421–T424 - create()"), 0, 3),
   (("T431–T434 - update()"), 0, 3),
   (("T441–T444 - search()"), 0, 3),
   (("T451–T454 - take()"), 0, 2),
   (("T461–T463 - add()"), 0, 2)]

/-- Outcome model of one entire grading run over a candidate file: the two
availability flags from the isolated loader (absence of a type surfaces as
an AttributeError that run_all_tests converts to a flag), the attribute
surfaces consumed by the documentation auditor, the linter outcome, and the
candidate-call outcomes of every scenario. -/
structure RunOutcomes where
  storageAvailable : Bool
  bomAvailable : Bool
  storageCls : PyClass
  bomCls : PyClass
  flake8 : Option Bool
  initO : InitOutcome
  createO : CreateOutcome
  updateO : UpdateOutcome
  searchO : SearchOutcome
  takeO : TakeOutcome
  addO : AddOutcome
  bomInitO : BomInitOutcome
  bomAvailO : BomAvailOutcome

/-- The BOM rows of the report: the pair of scenarios runs only when both
the BOM type and the Storage type were extracted, and availability is
attempted only when test_bom_init produced an instance; otherwise both
rows score 0 of their maxima. -/
def bomRows (o : RunOutcomes) : List Row :=
  if o.bomAvailable && o.storageAvailable then
    let p := test_bom_init o.bomInitO
    [(("T511–T515 - BOM.__init__"), p.2, 2),
     (("T521–T524 - BOM.availability"),
      if p.1 then test_bom_availability o.bomAvailO else 0, 3)]
  else
    [(("T511–T515 - BOM.__init__"), 0, 2),
     (("T521–T524 - BOM.availability"), 0, 3)]

/-- The try-block of run_all_tests: docstring and PEP8 rows first, then the
scenario battery (or its zero rows), then the BOM pair.  test_init is the
only scenario call that can raise, and its raise aborts the whole list. -/
def run_body (o : RunOutcomes) : Except Exc (List Row) :=
  let head : List Row :=
    [(("T201 - Docstrings"),
      check_docstring o.storageCls
        (if o.bomAvailable then some o.bomCls else Option.none), 1),
     (("T202 - PEP8"), check_pep8 o.flake8, 2)]
  if o.storageAvailable then
    ebind (test_init o.initO) (fun pts =>
    Except.ok (head ++
      [(("T411–T414 - __init__"), pts, 3),
       (("T421–T424 - create()"), test_create o.createO, 3),
       (("T431–T434 - update()"), test_update o.updateO, 3),
       (("T441–T444 - search()"), test_search o.searchO, 3),
       (("T451–T454 - take()"), test_take o.takeO, 2),
       (("T461–T463 - add()"), test_add o.addO, 2)] ++ bomRows o))
  else
    Except.ok (head ++ zeroStorageRows ++ bomRows o)

/-- run_all_tests, translated from the source: the temporary directory is
created before the scenario battery and the `finally` removes it on both
the normal path and the path where test_init raises; the second component
records the temporary-directory events in order. -/
def run_all_tests (o : RunOutcomes) : Except Exc (List Row) × List FsEvent :=
  match run_body o with
  | Except.ok rows => (Except.ok rows, [FsEvent.mkdtemp, FsEvent.rmtree])
  | Except.error e => (Except.error e, [FsEvent.mkdtemp, FsEvent.rmtree])

/-- Total earned points of a report, as summed in main. -/
def total_score (rows : List Row) : Nat := rows.foldl (fun acc r => acc + r.2.1) 0

/-- Total maximum points of a report, as summed in main. -/
def max_score (rows : List Row) : Nat := rows.foldl (fun acc r => acc + r.2.2) 0

/-- The verdict of main.  The source compares `total_score >= max_score * 0.4`
with Python floats; every report produced by run_all_tests has integer
scores and max_score 24, where the float comparison coincides with the
exact rational 40 percent threshold modeled here. -/
def passed (rows : List Row) : Bool :=
  decide (2 * max_score rows ≤ 5 * total_score rows)

/-!
Award conditions.  Each predicate states, directly over the recorded
candidate-call outcomes, the success criterion of a scenario as the spec
describes it; the characterization theorems below prove that the scenario
function awards its points exactly on these conditions.
-/

/-- Award condition of the construction scenario: the constructor and the
`_data` read return, the internal record mapping carries count "100" for
INITTEST-001 and value "TPS73033" for INITTEST-002 (via the same
`get`-chains the source evaluates), and the instance has a `_path`
attribute. -/
def initCond (o : InitOutcome) : Bool :=
  isOkE o.ctor &&
  okA o.dataAttr (fun data =>
    okA (pyGetD data ("INITTEST-001") (PyVal.dict [])) (fun r1 =>
      okA (pyGetD r1 ("count") (PyVal.prim Prim.none)) (fun c1 =>
        pyBeq c1 (PyVal.prim (Prim.str ("100"))))) &&
    okA (pyGetD data ("INITTEST-002") (PyVal.dict [])) (fun r2 =>
      okA (pyGetD r2 ("value") (PyVal.prim Prim.none)) (fun v2 =>
        pyBeq v2 (PyVal.prim (Prim.str ("TPS73033"))))) &&
    o.hasPath)

/-- Award condition of the take scenario: the seeding calls return, the
fully satisfiable batch returns the literal None, the batch with the one
unsatisfiable request returns a mapping equal to the single entry
TAKETEST-002 to -35, and the take of 5 of a wholly unknown part returns a
mapping equal to the single entry TAKETEST-NOT_EXIST to -5. -/
def takeCond (o : TakeOutcome) : Bool :=
  isOkE o.c1 && isOkE o.c2 &&
  okA o.t1 pyIsNone &&
  okA o.t2 (fun v => pyBeq v takeLit2) &&
  okA o.t3 (fun v => pyBeq v takeLit3)

/-- Award condition of the search scenario: the seeding call returns; the
exact lookup returns a truthy record whose package is "SOT-23-5"; the
attribute search reports SEARCHTEST-001; the argumentless search returns a
sized collection of at least one entry; the no-match filter returns the
literal None; and the combined call returns a result equal to the exact
lookup. -/
def searchCond (o : SearchOutcome) : Bool :=
  isOkE o.c &&
  okA o.sExact (fun ex =>
    pyTruthy ex &&
    okA (pySub ex ("package")) (fun pkg =>
      pyBeq pkg (PyVal.prim (Prim.str ("SOT-23-5")))) &&
    okA o.sAttr (fun at1 => okB (pyContains at1 ("SEARCHTEST-001"))) &&
    okA o.sAll (fun al => okN (pyLen al) (fun n => decide (1 ≤ n))) &&
    okA o.sNone pyIsNone &&
    okA o.sComb (fun cb => pyBeq cb ex))

/-- Award condition of the add scenario: the seeding call returns; the
known-part add returns the literal None and the stored count string becomes
"130"; the all-unknown batch returns a mapping equal to the two requested
entries; the mixed batch returns a mapping equal to the unknown entry while
the known part ends up incremented; and the zero-quantity add returns the
literal None with the count string still "135". -/
def addCond (o : AddOutcome) : Bool :=
  isOkE o.c &&
  okA o.r1 pyIsNone &&
  okA o.dataA (fun dataA =>
    okA (pySub dataA ("ADDTEST-001")) (fun pa =>
      okA (pySub pa ("count")) (fun ca =>
        pyBeq ca (PyVal.prim (Prim.str ("130")))))) &&
  okA o.r2 (fun v => pyBeq v addLit2) &&
  okA o.r3 (fun v => pyBeq v addLit3) &&
  okA o.r4 pyIsNone &&
  okA o.dataB (fun dataB =>
    okA (pySub dataB ("ADDTEST-001")) (fun pb =>
      okA (pySub pb ("count")) (fun cb =>
        pyBeq cb (PyVal.prim (Prim.str ("135"))))))

/-!
Concrete candidate behaviors, used to instantiate the theorems: a fully
conforming candidate, and a candidate whose Storage constructor raises.
-/

/-- A generic successful call returning None. -/
def okNone : Except Exc PyVal := Except.ok (PyVal.prim Prim.none)

/-- Construction outcomes of a conforming candidate. -/
def goodInit : InitOutcome where
  ctor := Except.ok ()
  dataAttr := Except.ok (PyVal.dict
    [(("INITTEST-001"), PyVal.dict
        [(("count"), PyVal.prim (Prim.str ("100"))),
         (("description"), PyVal.prim (Prim.str ("Chip Resistor")))]),
     (("INITTEST-002"), PyVal.dict
        [(("count"), PyVal.prim (Prim.str ("20"))),
         (("value"), PyVal.prim (Prim.str ("TPS73033")))])])
  hasPath := true

/-- Construction outcomes of a candidate whose constructor raises. -/
def badInit : InitOutcome where
  ctor := Except.error Exc.otherError
  dataAttr := Except.ok (PyVal.dict [])
  hasPath := false

/-- Create-scenario outcomes of a conforming candidate. -/
def goodCreate : CreateOutcome where
  r1 := Except.ok (PyVal.prim (Prim.bool true))
  dataA := Except.ok (PyVal.dict
    [(("CREATETEST-001"), PyVal.dict
        [(("count"), PyVal.prim (Prim.str ("25"))),
         (("value"), PyVal.prim (Prim.str ("green")))])])
  r2 := Except.ok (PyVal.prim (Prim.bool false))
  r3 := Except.ok (PyVal.prim (Prim.bool true))
  dataB := Except.ok (PyVal.dict
    [(("CREATETEST-001"), PyVal.dict
        [(("count"), PyVal.prim (Prim.str ("100")))])])

/-- Update-scenario outcomes of a conforming candidate: the update on the
unknown key raises KeyError. -/
def goodUpdate : UpdateOutcome where
  c := okNone
  u1 := okNone
  dataA := Except.ok (PyVal.dict
    [(("UPDATETEST-001"), PyVal.dict
        [(("package"), PyVal.prim (Prim.str ("SOT-23-5"))),
         (("count"), PyVal.prim (Prim.str ("20")))])])
  u2 := Except.error Exc.keyError

/-- Update-scenario outcomes of a candidate whose update on the unknown key
returns normally instead of raising. -/
def noRaiseUpdate : UpdateOutcome where
  c := okNone
  u1 := okNone
  dataA := Except.ok (PyVal.dict
    [(("UPDATETEST-001"), PyVal.dict
        [(("package"), PyVal.prim (Prim.str ("SOT-23-5"))),
         (("count"), PyVal.prim (Prim.str ("20")))])])
  u2 := okNone

/-- Search-scenario outcomes of a conforming candidate. -/
def goodSearch : SearchOutcome where
  c := okNone
  sExact := Except.ok (PyVal.dict
    [(("count"), PyVal.prim (Prim.str ("20"))),
     (("package"), PyVal.prim (Prim.str ("SOT-23-5")))])
  sAttr := Except.ok (PyVal.list [PyVal.prim (Prim.str ("SEARCHTEST-001"))])
  sAll := Except.ok (PyVal.dict [(("SEARCHTEST-001"), PyVal.prim (Prim.obj 0))])
  sNone := okNone
  sComb := Except.ok (PyVal.dict
    [(("package"), PyVal.prim (Prim.str ("SOT-23-5"))),
     (("count"), PyVal.prim (Prim.str ("20")))])

/-- Take-scenario outcomes of a conforming candidate. -/
def goodTake : TakeOutcome where
  c1 := okNone
  c2 := okNone
  t1 := okNone
  t2 := Except.ok (PyVal.dict [(("TAKETEST-002"), PyVal.prim (Prim.int (-35)))])
  t3 := Except.ok (PyVal.dict [(("TAKETEST-NOT_EXIST"), PyVal.prim (Prim.int (-5)))])

/-- Add-scenario outcomes of a conforming candidate. -/
def goodAdd : AddOutcome where
  c := okNone
  r1 := okNone
  dataA := Except.ok (PyVal.dict
    [(("ADDTEST-001"), PyVal.dict [(("count"), PyVal.prim (Prim.str ("130")))])])
  r2 := Except.ok (PyVal.dict
    [(("UNKNOWN-B"), PyVal.prim (Prim.int 15)),
     (("UNKNOWN-A"), PyVal.prim (Prim.int 10))])
  r3 := Except.ok (PyVal.dict [(("UNKNOWN-A"), PyVal.prim (Prim.int 10))])
  r4 := okNone
  dataB := Except.ok (PyVal.dict
    [(("ADDTEST-001"), PyVal.dict [(("count"), PyVal.prim (Prim.str ("135")))])])

/-- BOM-construction outcomes of a conforming candidate (references stored
in a scrambled order, which sorting normalizes). -/
def goodBomInit : BomInitOutcome where
  ctor := Except.ok ()
  partsAttr := Except.ok (PyVal.dict
    [(("BOMTEST-003"), PyVal.dict
        [(("reference"), PyVal.list
            [PyVal.prim (Prim.str ("C5")), PyVal.prim (Prim.str ("C3")),
             PyVal.prim (Prim.str ("C6")), PyVal.prim (Prim.str ("C4"))]),
         (("value"), PyVal.prim (Prim.str ("47nF")))])])

/-- BOM-availability outcomes of a conforming candidate. -/
def goodBomAvail : BomAvailOutcome where
  sctor := Except.ok ()
  a1 := Except.ok (PyVal.dict [(("BOMTEST-004"), PyVal.prim (Prim.int 0))])
  a2 := Except.ok (PyVal.list
    [PyVal.dict [(("BOMTEST-004"), PyVal.prim (Prim.int 0))],
     PyVal.prim (Prim.str ("Part Number | needed | available"))])

/-- A Storage attribute surface with every required operation documented. -/
def fullDocCls : PyClass where
  methods :=
    [(("__init__"), some ("Load the storage directory.")),
     (("create"), some ("Create a record.")),
     (("update"), some ("Update a record.")),
     (("search"), some ("Search records.")),
     (("take"), some ("Take parts.")),
     (("add"), some ("Add parts."))]

/-- A BOM attribute surface with every required operation documented. -/
def bomDocCls : PyClass where
  methods :=
    [(("__init__"), some ("Parse the bill of materials.")),
     (("availability"), some ("Compute availability."))]

/-- A full grading run over a conforming candidate. -/
def goodRun : RunOutcomes where
  storageAvailable := true
  bomAvailable := true
  storageCls := fullDocCls
  bomCls := bomDocCls
  flake8 := some true
  initO := goodInit
  createO := goodCreate
  updateO := goodUpdate
  searchO := goodSearch
  takeO := goodTake
  addO := goodAdd
  bomInitO := goodBomInit
  bomAvailO := goodBomAvail

/-- A grading run where the Storage constructor raises. -/
def raisingCtorRun : RunOutcomes := { goodRun with initO := badInit }

/-- A grading run over a candidate without a BOM type. -/
def noBomRun : RunOutcomes := { goodRun with bomAvailable := false }

/-- A grading run without a BOM type whose Storage constructor raises. -/
def noBomRaisingRun : RunOutcomes :=
  { goodRun with bomAvailable := false, initO := badInit }

/-- A grading run over a candidate without a Storage type but with a fully
conforming BOM type. -/
def noStorageRun : RunOutcomes := { goodRun with storageAvailable := false }
/-- The call raised KeyError (the one exception class the caller of update
is required to be able to distinguish). -/
def isKeyErrorE {α : Type} : Except Exc α → Bool
  | Except.error Exc.keyError => true
  | _ => false

/-!
Theorems.  First the evaluation lemmas for the outcome combinators, then
auxiliary lemmas, then one theorem per claim together with its witness or
counterexample instances.
-/

@[simp] theorem ebind_ok {α β : Type} (v : α) (f : α → Except Exc β) :
    ebind (Except.ok v) f = f v := rfl

@[simp] theorem ebind_error {α β : Type} (e : Exc) (f : α → Except Exc β) :
    ebind (Except.error e) f = Except.error e := rfl

@[simp] theorem runCaught_ok (n : Nat) : runCaught (Except.ok n) = n := rfl

@[simp] theorem runCaught_error (e : Exc) : runCaught (Except.error e) = 0 := rfl

@[simp] theorem isOkE_ok {α : Type} (v : α) : isOkE (Except.ok v) = true := rfl

@[simp] theorem isOkE_error {α : Type} (e : Exc) :
    isOkE (Except.error (α := α) e) = false := rfl

@[simp] theorem okA_ok (v : PyVal) (p : PyVal → Bool) : okA (Except.ok v) p = p v := rfl

@[simp] theorem okA_error (e : Exc) (p : PyVal → Bool) :
    okA (Except.error e) p = false := rfl

@[simp] theorem okB_ok (b : Bool) : okB (Except.ok b) = b := rfl

@[simp] theorem okB_error (e : Exc) : okB (Except.error e) = false := rfl

@[simp] theorem okN_ok (n : Nat) (p : Nat → Bool) : okN (Except.ok n) p = p n := rfl

@[simp] theorem okN_error (e : Exc) (p : Nat → Bool) : okN (Except.error e) p = false := rfl

/-- The BOM pair always contributes exactly two report rows. -/
theorem bomRows_length (o : RunOutcomes) : (bomRows o).length = 2 := by
  unfold bomRows
  split <;> simp

/-- A documented-method count never exceeds the number of required names. -/
theorem docCount_le (cls : PyClass) (l : List String) : docCount cls l ≤ l.length := by
  induction l with
  | nil => simp [docCount]
  | cons x xs ih =>
    simp only [docCount, List.length_cons]
    split <;> omega

/-- The documented-method count reaches the number of required names exactly
when every required name is documented. -/
theorem docCount_eq_length_iff (cls : PyClass) (l : List String) :
    docCount cls l = l.length ↔ ∀ n ∈ l, documented cls n = true := by
  induction l with
  | nil => simp [docCount]
  | cons x xs ih =>
    have hle := docCount_le cls xs
    cases hx : documented cls x with
    | true =>
      constructor
      · intro h n hn
        rcases List.mem_cons.mp hn with rfl | hmem
        · exact hx
        · simp [docCount, hx] at h
          exact (ih.mp (by omega)) n hmem
      · intro h
        have hxs := ih.mpr (fun n hn => h n (List.mem_cons_of_mem _ hn))
        simp [docCount, hx]
        omega
    | false =>
      constructor
      · intro h
        exfalso
        simp [docCount, hx] at h
        omega
      · intro h
        have hxx := h x (List.mem_cons_self x xs)
        rw [hx] at hxx
        cases hxx

/-- Claim C1, amended.  Every scenario function except the construction
scenario catches every candidate exception at the scenario boundary and
converts it to a zero score; test_init has no handler, so an exception
raised by candidate code during the construction scenario propagates out of
run_all_tests.  Whenever the construction scenario raises nothing (in
particular whenever the Storage type is unavailable and it never runs),
run_all_tests returns the complete ten-row results list. -/
theorem claim_C1_amended :
    (∀ (o : CreateOutcome) (e : Exc),
      test_create_body o = Except.error e → test_create o = 0) ∧
    (∀ (o : UpdateOutcome) (e : Exc),
      test_update_body o = Except.error e → test_update o = 0) ∧
    (∀ (o : SearchOutcome) (e : Exc),
      test_search_body o = Except.error e → test_search o = 0) ∧
    (∀ (o : TakeOutcome) (e : Exc),
      test_take_body o = Except.error e → test_take o = 0) ∧
    (∀ (o : AddOutcome) (e : Exc),
      test_add_body o = Except.error e → test_add o = 0) ∧
    (∀ (o : BomInitOutcome) (e : Exc),
      test_bom_init_body o = Except.error e → test_bom_init o = (false, 0)) ∧
    (∀ (o : BomAvailOutcome) (e : Exc),
      test_bom_availability_body o = Except.error e → test_bom_availability o = 0) ∧
    (∀ (o : RunOutcomes), (o.storageAvailable = true → isOkE (test_init o.initO) = true) →
      ∃ rows, (run_all_tests o).fst = Except.ok rows ∧ rows.length = 10) := by
  refine ⟨?_, ?_, ?_, ?_, ?_, ?_, ?_, ?_⟩
  · intro o e h
    simp [test_create, h]
  · intro o e h
    simp [test_update, h]
  · intro o e h
    simp [test_search, h]
  · intro o e h
    simp [test_take, h]
  · intro o e h
    simp [test_add, h]
  · intro o e h
    simp [test_bom_init, h]
  · intro o e h
    simp [test_bom_availability, h]
  · intro o h
    cases hs : o.storageAvailable with
    | false =>
      have hb : run_body o = Except.ok
          ([(("T201 - Docstrings"),
             check_docstring o.storageCls
               (if o.bomAvailable then some o.bomCls else Option.none), 1),
            (("T202 - PEP8"), check_pep8 o.flake8, 2)] ++ zeroStorageRows ++ bomRows o) := by
        simp [run_body, hs]
      refine ⟨[(("T201 - Docstrings"),
             check_docstring o.storageCls
               (if o.bomAvailable then some o.bomCls else Option.none), 1),
            (("T202 - PEP8"), check_pep8 o.flake8, 2)] ++ zeroStorageRows ++ bomRows o, ?_, ?_⟩
      · simp [run_all_tests, hb]
      · simp [zeroStorageRows, bomRows_length]
    | true =>
      have hi := h hs
      rcases ht : test_init o.initO with e | pts
      · rw [ht] at hi
        cases hi
      · have hb : run_body o = Except.ok
            ([(("T201 - Docstrings"),
               check_docstring o.storageCls
                 (if o.bomAvailable then some o.bomCls else Option.none), 1),
              (("T202 - PEP8"), check_pep8 o.flake8, 2)] ++
             [(("T411–T414 - __init__"), pts, 3),
              (("T421–T424 - create()"), test_create o.createO, 3),
              (("T431–T434 - update()"), test_update o.updateO, 3),
              (("T441–T444 - search()"), test_search o.searchO, 3),
              (("T451–T454 - take()"), test_take o.takeO, 2),
              (("T461–T463 - add()"), test_add o.addO, 2)] ++ bomRows o) := by
          simp [run_body, hs, ht]
        refine ⟨[(("T201 - Docstrings"),
               check_docstring o.storageCls
                 (if o.bomAvailable then some o.bomCls else Option.none), 1),
              (("T202 - PEP8"), check_pep8 o.flake8, 2)] ++
             [(("T411–T414 - __init__"), pts, 3),
              (("T421–T424 - create()"), test_create o.createO, 3),
              (("T431–T434 - update()"), test_update o.updateO, 3),
              (("T441–T444 - search()"), test_search o.searchO, 3),
              (("T451–T454 - take()"), test_take o.takeO, 2),
              (("T461–T463 - add()"), test_add o.addO, 2)] ++ bomRows o, ?_, ?_⟩
        · simp [run_all_tests, hb]
        · simp [bomRows_length]

/-- Claim C1, counterexample to the claim as stated: a candidate whose
Storage constructor raises makes run_all_tests propagate the exception
instead of producing a results list, so not every candidate exception
raised during a scenario is converted to a zero score. -/
theorem claim_C1_counterexample :
    (run_all_tests raisingCtorRun).fst = Except.error Exc.otherError := rfl

/-- Claim C1, witness: a conforming candidate yields the full ten-row
report. -/
theorem claim_C1_witness :
    ∃ rows, (run_all_tests goodRun).fst = Except.ok rows ∧ rows.length = 10 :=
  claim_C1_amended.2.2.2.2.2.2.2 goodRun (fun _ => rfl)

/-- Claim C2, amended.  For a candidate from which the Storage type was
extracted but the BOM type was not, and whose construction-scenario calls
do not raise, run_all_tests reports the Storage scenario scores as
computed, reports the two BOM rows as 0 of 2 and 0 of 3, and the verdict
of main on the resulting report applies the fixed 40 percent threshold
(matching 10 of the 24 maximum points). -/
theorem claim_C2_amended (o : RunOutcomes) (hs : o.storageAvailable = true)
    (hbom : o.bomAvailable = false) (hi : isOkE (test_init o.initO) = true) :
    ∃ pts rows, test_init o.initO = Except.ok pts ∧
      rows = [(("T201 - Docstrings"), check_docstring o.storageCls Option.none, 1),
              (("T202 - PEP8"), check_pep8 o.flake8, 2),
              (("T411–T414 - __init__"), pts, 3),
              (("T421–T424 - create()"), test_create o.createO, 3),
              (("T431–T434 - update()"), test_update o.updateO, 3),
              (("T441–T444 - search()"), test_search o.searchO, 3),
              (("T451–T454 - take()"), test_take o.takeO, 2),
              (("T461–T463 - add()"), test_add o.addO, 2),
              (("T511–T515 - BOM.__init__"), 0, 2),
              (("T521–T524 - BOM.availability"), 0, 3)] ∧
      (run_all_tests o).fst = Except.ok rows ∧
      max_score rows = 24 ∧
      (passed rows = true ↔ 10 ≤ total_score rows) := by
  rcases ht : test_init o.initO with e | pts
  · rw [ht] at hi
    cases hi
  · refine ⟨pts, _, rfl, rfl, ?_, ?_, ?_⟩
    · have hb : run_body o = Except.ok
          [(("T201 - Docstrings"), check_docstring o.storageCls Option.none, 1),
           (("T202 - PEP8"), check_pep8 o.flake8, 2),
           (("T411–T414 - __init__"), pts, 3),
           (("T421–T424 - create()"), test_create o.createO, 3),
           (("T431–T434 - update()"), test_update o.updateO, 3),
           (("T441–T444 - search()"), test_search o.searchO, 3),
           (("T451–T454 - take()"), test_take o.takeO, 2),
           (("T461–T463 - add()"), test_add o.addO, 2),
           (("T511–T515 - BOM.__init__"), 0, 2),
           (("T521–T524 - BOM.availability"), 0, 3)] := by
        simp [run_body, hs, ht, bomRows, hbom]
      simp [run_all_tests, hb]
    · simp [max_score]
    · simp [passed, max_score, total_score]
      omega

/-- Claim C2, counterexample to the claim as stated: a candidate without a
BOM type whose Storage constructor raises crashes the grading run, so no
report, total, or verdict is produced at all. -/
theorem claim_C2_counterexample :
    (run_all_tests noBomRaisingRun).fst = Except.error Exc.otherError := rfl

/-- Claim C2, witness: a conforming candidate without a BOM type. -/
theorem claim_C2_witness :
    ∃ pts rows, test_init noBomRun.initO = Except.ok pts ∧
      rows = [(("T201 - Docstrings"), check_docstring noBomRun.storageCls Option.none, 1),
              (("T202 - PEP8"), check_pep8 noBomRun.flake8, 2),
              (("T411–T414 - __init__"), pts, 3),
              (("T421–T424 - create()"), test_create noBomRun.createO, 3),
              (("T431–T434 - update()"), test_update noBomRun.updateO, 3),
              (("T441–T444 - search()"), test_search noBomRun.searchO, 3),
              (("T451–T454 - take()"), test_take noBomRun.takeO, 2),
              (("T461–T463 - add()"), test_add noBomRun.addO, 2),
              (("T511–T515 - BOM.__init__"), 0, 2),
              (("T521–T524 - BOM.availability"), 0, 3)] ∧
      (run_all_tests noBomRun).fst = Except.ok rows ∧
      max_score rows = 24 ∧
      (passed rows = true ↔ 10 ≤ total_score rows) :=
  claim_C2_amended noBomRun rfl rfl rfl

/-- Claim C3.  The update scenario awards its 3 points only when the update
on the non-existent part number raises a KeyError; if that call returns
without raising, or raises any other kind of exception, the scenario
scores 0. -/
theorem claim_C3 (o : UpdateOutcome) :
    (test_update o = 3 → isKeyErrorE o.u2 = true) ∧
    (isKeyErrorE o.u2 = false → test_update o = 0) := by
  obtain ⟨c, u1, dataA, u2⟩ := o
  have key : ∀ n, test_update_body ⟨c, u1, dataA, u2⟩ = Except.ok n →
      n = 0 ∨ (n = 3 ∧ isKeyErrorE u2 = true) := by
    intro n h
    simp only [test_update_body, ebind] at h
    repeat' split at h
    all_goals simp_all [isKeyErrorE]
  constructor
  · intro h3
    rcases hb : test_update_body ⟨c, u1, dataA, u2⟩ with e | n
    · simp [test_update, hb] at h3
    · simp [test_update, hb] at h3
      rcases key n hb with h0 | ⟨_, hk⟩
      · omega
      · exact hk
  · intro hk
    rcases hb : test_update_body ⟨c, u1, dataA, u2⟩ with e | n
    · simp [test_update, hb]
    · rcases key n hb with h0 | ⟨h3, hk3⟩
      · simp [test_update, hb, h0]
      · rw [hk3] at hk
        exact absurd hk (by simp)

/-- Claim C3, witness: a candidate whose update on the unknown key returns
normally scores 0. -/
theorem claim_C3_witness : test_update noRaiseUpdate = 0 :=
  (claim_C3 noRaiseUpdate).2 rfl

/-- Claim C4.  The take scenario awards its 2 points exactly when the
seeding calls return, the fully satisfiable batch returns None, the batch
with the one unsatisfiable request returns a mapping equal to the single
entry TAKETEST-002 to -35, and the take of 5 of the wholly unknown part
returns a mapping equal to the single entry TAKETEST-NOT_EXIST to -5; on
every other outcome, exceptions included, it scores 0. -/
theorem claim_C4 (o : TakeOutcome) :
    (test_take o = 2 ↔ takeCond o = true) ∧ (test_take o = 0 ∨ test_take o = 2) := by
  obtain ⟨c1, c2, t1, t2, t3⟩ := o
  have key : ∀ n, test_take_body ⟨c1, c2, t1, t2, t3⟩ = Except.ok n →
      (n = 0 ∨ n = 2) ∧ (n = 2 ↔ takeCond ⟨c1, c2, t1, t2, t3⟩ = true) := by
    intro n h
    simp only [test_take_body, ebind] at h
    repeat' split at h
    all_goals simp_all [takeCond, isOkE, okA]
    all_goals omega
  have key2 : ∀ e, test_take_body ⟨c1, c2, t1, t2, t3⟩ = Except.error e →
      takeCond ⟨c1, c2, t1, t2, t3⟩ = false := by
    intro e h
    simp only [test_take_body, ebind] at h
    repeat' split at h
    all_goals simp_all [takeCond, isOkE, okA]
  constructor
  · constructor
    · intro h2
      rcases hb : test_take_body ⟨c1, c2, t1, t2, t3⟩ with e | n
      · simp [test_take, hb] at h2
      · simp [test_take, hb] at h2
        exact ((key n hb).2).mp h2
    · intro hc
      rcases hb : test_take_body ⟨c1, c2, t1, t2, t3⟩ with e | n
      · rw [key2 e hb] at hc
        cases hc
      · simp [test_take, hb]
        exact ((key n hb).2).mpr hc
  · rcases hb : test_take_body ⟨c1, c2, t1, t2, t3⟩ with e | n
    · simp [test_take, hb]
    · have := (key n hb).1
      simp [test_take, hb]
      omega

/-- Claim C4, witness: a conforming candidate earns the 2 take points. -/
theorem claim_C4_witness : test_take goodTake = 2 :=
  (claim_C4 goodTake).1.mpr rfl

/-- Claim C5.  The search scenario awards its 3 points exactly when the
exact lookup returns a truthy record with package SOT-23-5, the attribute
search reports SEARCHTEST-001, the argumentless search returns a sized
collection of at least one record, the non-matching attribute filter
returns the None sentinel, and the combined call returns a result equal to
the exact lookup; on every other outcome, exceptions included, it
scores 0. -/
theorem claim_C5 (o : SearchOutcome) :
    (test_search o = 3 ↔ searchCond o = true) ∧ (test_search o = 0 ∨ test_search o = 3) := by
  obtain ⟨c, se, sa, sal, sn, sc⟩ := o
  have key : ∀ n, test_search_body ⟨c, se, sa, sal, sn, sc⟩ = Except.ok n →
      (n = 0 ∨ n = 3) ∧ (n = 3 ↔ searchCond ⟨c, se, sa, sal, sn, sc⟩ = true) := by
    intro n h
    simp only [test_search_body, ebind] at h
    repeat' split at h
    all_goals simp_all [searchCond, isOkE, okA, okB, okN]
    all_goals omega
  have key2 : ∀ e, test_search_body ⟨c, se, sa, sal, sn, sc⟩ = Except.error e →
      searchCond ⟨c, se, sa, sal, sn, sc⟩ = false := by
    intro e h
    simp only [test_search_body, ebind] at h
    repeat' split at h
    all_goals simp_all [searchCond, isOkE, okA, okB, okN]
  constructor
  · constructor
    · intro h2
      rcases hb : test_search_body ⟨c, se, sa, sal, sn, sc⟩ with e | n
      · simp [test_search, hb] at h2
      · simp [test_search, hb] at h2
        exact ((key n hb).2).mp h2
    · intro hc
      rcases hb : test_search_body ⟨c, se, sa, sal, sn, sc⟩ with e | n
      · rw [key2 e hb] at hc
        cases hc
      · simp [test_search, hb]
        exact ((key n hb).2).mpr hc
  · rcases hb : test_search_body ⟨c, se, sa, sal, sn, sc⟩ with e | n
    · simp [test_search, hb]
    · have := (key n hb).1
      simp [test_search, hb]
      omega

/-- Claim C5, witness: a conforming candidate earns the 3 search points. -/
theorem claim_C5_witness : test_search goodSearch = 3 :=
  (claim_C5 goodSearch).1.mpr rfl

/-- Claim C6.  The temporary directory created before the scenario battery
is removed by the time run_all_tests finishes, on every exit path,
including the path where the construction scenario raises. -/
theorem claim_C6 (o : RunOutcomes) :
    (run_all_tests o).snd = [FsEvent.mkdtemp, FsEvent.rmtree] := by
  unfold run_all_tests
  cases h : run_body o <;> simp [h]

/-- Claim C7.  The documentation auditor returns 1 exactly when every
required Storage operation and, when a BOM class is supplied, every
required BOM operation carries a non-empty docstring, an absent operation
counting as undocumented; in every other case it returns 0 and it never
returns proportional partial credit. -/
theorem claim_C7 (storage_cls : PyClass) (bom_cls : Option PyClass) :
    (check_docstring storage_cls bom_cls = 1 ↔
      ((∀ n ∈ storageMethodNames, documented storage_cls n = true) ∧
       (∀ b, bom_cls = some b → ∀ n ∈ bomMethodNames, documented b n = true))) ∧
    (check_docstring storage_cls bom_cls = 0 ∨ check_docstring storage_cls bom_cls = 1) := by
  have hsLe := docCount_le storage_cls storageMethodNames
  have hsIff := docCount_eq_length_iff storage_cls storageMethodNames
  cases bom_cls with
  | none =>
    have h1 : check_docstring storage_cls Option.none =
        (if docCount storage_cls storageMethodNames = storageMethodNames.length
         then 1 else 0) := by
      simp [check_docstring]
    constructor
    · rw [h1]
      constructor
      · intro hOne
        have ht : docCount storage_cls storageMethodNames = storageMethodNames.length := by
          by_contra hno
          simp [hno] at hOne
        exact ⟨hsIff.mp ht, by intro b hb; cases hb⟩
      · rintro ⟨hall, _⟩
        simp [hsIff.mpr hall]
    · rw [h1]
      split <;> simp
  | some b =>
    have hbLe := docCount_le b bomMethodNames
    have hbIff := docCount_eq_length_iff b bomMethodNames
    have h1 : check_docstring storage_cls (some b) =
        (if docCount storage_cls storageMethodNames + docCount b bomMethodNames =
            storageMethodNames.length + bomMethodNames.length then 1 else 0) := by
      simp [check_docstring]
    constructor
    · rw [h1]
      constructor
      · intro hOne
        have ht : docCount storage_cls storageMethodNames + docCount b bomMethodNames =
            storageMethodNames.length + bomMethodNames.length := by
          by_contra hno
          simp [hno] at hOne
        have h2 : docCount storage_cls storageMethodNames = storageMethodNames.length := by
          omega
        have h3 : docCount b bomMethodNames = bomMethodNames.length := by
          omega
        refine ⟨hsIff.mp h2, ?_⟩
        intro b2 hb2
        cases hb2
        exact hbIff.mp h3
      · rintro ⟨hall, hbom⟩
        simp [hsIff.mpr hall, hbIff.mpr (hbom b rfl)]
    · rw [h1]
      split <;> simp

/-- Claim C7, witness: fully documented Storage and BOM classes earn the
point. -/
theorem claim_C7_witness : check_docstring fullDocCls (some bomDocCls) = 1 :=
  (claim_C7 fullDocCls (some bomDocCls)).1.mpr
    ⟨by decide, by intro b hb; cases hb; decide⟩

/-- Claim C8.  The add scenario awards its 2 points exactly when the
seeding call returns, the known-part add returns None with the stored count
string "130", the all-unknown batch returns a mapping equal to the two
requested entries, the mixed batch returns a mapping equal to the unknown
entry with the known part incremented to "135" by the zero-quantity check,
and the zero-quantity add returns None with the count string still "135";
on every other outcome, exceptions included, it scores 0. -/
theorem claim_C8 (o : AddOutcome) :
    (test_add o = 2 ↔ addCond o = true) ∧ (test_add o = 0 ∨ test_add o = 2) := by
  obtain ⟨c, r1, dataA, r2, r3, r4, dataB⟩ := o
  have key : ∀ n, test_add_body ⟨c, r1, dataA, r2, r3, r4, dataB⟩ = Except.ok n →
      (n = 0 ∨ n = 2) ∧ (n = 2 ↔ addCond ⟨c, r1, dataA, r2, r3, r4, dataB⟩ = true) := by
    intro n h
    simp only [test_add_body, ebind] at h
    repeat' split at h
    all_goals simp_all [addCond, isOkE, okA]
    all_goals omega
  have key2 : ∀ e, test_add_body ⟨c, r1, dataA, r2, r3, r4, dataB⟩ = Except.error e →
      addCond ⟨c, r1, dataA, r2, r3, r4, dataB⟩ = false := by
    intro e h
    simp only [test_add_body, ebind] at h
    repeat' split at h
    all_goals simp_all [addCond, isOkE, okA]
  constructor
  · constructor
    · intro h2
      rcases hb : test_add_body ⟨c, r1, dataA, r2, r3, r4, dataB⟩ with e | n
      · simp [test_add, hb] at h2
      · simp [test_add, hb] at h2
        exact ((key n hb).2).mp h2
    · intro hc
      rcases hb : test_add_body ⟨c, r1, dataA, r2, r3, r4, dataB⟩ with e | n
      · rw [key2 e hb] at hc
        cases hc
      · simp [test_add, hb]
        exact ((key n hb).2).mpr hc
  · rcases hb : test_add_body ⟨c, r1, dataA, r2, r3, r4, dataB⟩ with e | n
    · simp [test_add, hb]
    · have := (key n hb).1
      simp [test_add, hb]
      omega

/-- Claim C8, witness: a conforming candidate earns the 2 add points. -/
theorem claim_C8_witness : test_add goodAdd = 2 :=
  (claim_C8 goodAdd).1.mpr rfl

/-- Claim C9, amended.  The construction scenario awards its 3 points
exactly when the constructor and the `_data` read return, the record
mapping carries count "100" for INITTEST-001 and value "TPS73033" for
INITTEST-002, and the instance has a `_path` attribute; otherwise, when
its candidate calls return, it awards 0, and when a candidate call raises,
the exception propagates instead of an award being made. -/
theorem claim_C9_amended (o : InitOutcome) :
    (test_init o = Except.ok 3 ↔ initCond o = true) ∧
    (test_init o = Except.ok 0 ∨ test_init o = Except.ok 3 ∨
      ∃ e, test_init o = Except.error e) := by
  obtain ⟨ctor, dataAttr, hasPath⟩ := o
  have key : ∀ r, test_init ⟨ctor, dataAttr, hasPath⟩ = r →
      ((r = Except.ok 3 ↔ initCond ⟨ctor, dataAttr, hasPath⟩ = true) ∧
       (r = Except.ok 0 ∨ r = Except.ok 3 ∨ ∃ e, r = Except.error e)) := by
    intro r h
    simp only [test_init, ebind] at h
    repeat' split at h
    all_goals subst h
    all_goals simp_all [initCond, isOkE, okA]
  exact key _ rfl

/-- Claim C9, counterexample to the claim as stated: a candidate whose
constructor raises makes the construction scenario award neither 3 nor 0;
the exception escapes the scenario. -/
theorem claim_C9_counterexample :
    test_init badInit = Except.error Exc.otherError ∧ initCond badInit = false :=
  ⟨rfl, rfl⟩

/-- Claim C9, witness: a conforming candidate earns the 3 construction
points. -/
theorem claim_C9_witness : test_init goodInit = Except.ok 3 :=
  (claim_C9_amended goodInit).1.mpr rfl

/-- Claim C10.  Whenever the Storage type is absent, both BOM rows score 0
regardless of the BOM outcomes, because the BOM pair runs only when both
types were extracted. -/
theorem claim_C10 (o : RunOutcomes) (h : o.storageAvailable = false) :
    (run_all_tests o).fst = Except.ok
      ([(("T201 - Docstrings"),
         check_docstring o.storageCls
           (if o.bomAvailable then some o.bomCls else Option.none), 1),
        (("T202 - PEP8"), check_pep8 o.flake8, 2)] ++ zeroStorageRows ++
       [(("T511–T515 - BOM.__init__"), 0, 2),
        (("T521–T524 - BOM.availability"), 0, 3)]) := by
  have hb : run_body o = Except.ok
      ([(("T201 - Docstrings"),
         check_docstring o.storageCls
           (if o.bomAvailable then some o.bomCls else Option.none), 1),
        (("T202 - PEP8"), check_pep8 o.flake8, 2)] ++ zeroStorageRows ++
       [(("T511–T515 - BOM.__init__"), 0, 2),
        (("T521–T524 - BOM.availability"), 0, 3)]) := by
    simp [run_body, h, bomRows]
  simp [run_all_tests, hb]

/-- Claim C10, witness: a candidate with a fully conforming BOM type but no
Storage type still gets 0 on both BOM rows. -/
theorem claim_C10_witness :
    (run_all_tests noStorageRun).fst = Except.ok
      ([(("T201 - Docstrings"),
         check_docstring noStorageRun.storageCls
           (if noStorageRun.bomAvailable then some noStorageRun.bomCls else Option.none), 1),
        (("T202 - PEP8"), check_pep8 noStorageRun.flake8, 2)] ++ zeroStorageRows ++
       [(("T511–T515 - BOM.__init__"), 0, 2),
        (("T521–T524 - BOM.availability"), 0, 3)]) :=
  claim_C10 noStorageRun rfl
